import Mathlib

/-!
Verification of the beartype PEP type-hint introspection core
(`beartype/_util/hint/pep/utilhintpepget.py` and
`beartype/_util/hint/pep/proposal/pep484/utilpep484.py`).

A Python type hint is modelled as a record (`HintData`) recording exactly the
observations the source functions make of a hint object: the results of the
external tester predicates (`is_hint_pep_generic`, `is_hint_pep585_builtin`,
`is_hint_forwardref`, `is_hint_pep484_newtype`, `is_hint_pep_typevar`, ...,
all of which live outside the two source files), its dunder attributes
(`__origin__`, `__args__`, `__parameters__`), its membership in the external
data sets (`HINT_PEP_SIGNS_TYPE`), and its `repr` string.  The external
module-importation machinery and data-module sets are modelled as an
environment record (`Env`).  Python exceptions are modelled with `Except`;
Python values that the functions can return are modelled by `PyVal`.

The embedded functions follow the modern-interpreter code paths
(`IS_PYTHON_AT_LEAST_3_7` and, for `get_hint_pep_typevars`,
`IS_PYTHON_AT_LEAST_3_9`); the Python 3.6-specific variant of
`get_hint_pep_args` is embedded separately as `get_hint_pep_args_py36`.
-/

namespace Beartype

/-- A Python object, identified by a name, together with the one intrinsic
fact the source reads about arbitrary objects: whether `isinstance(o, type)`
holds. -/
structure PyObj where
  name : String
  isTypeObj : Bool
deriving DecidableEq, Repr

/-- A Python value as returned by the embedded getters: the distinguished
constants returned by fixed branches of `get_hint_pep_sign` (`NoneType`,
`typing.Generic`, `HINT_PEP484_TYPE_FORWARDREF`, `typing.NewType`,
`typing.TypeVar`) and arbitrary other objects. -/
inductive PyVal where
  | noneType
  | genericABC
  | forwardRefType
  | newTypeFactory
  | typeVarClass
  | obj (o : PyObj)
deriving DecidableEq, Repr

/-- A Python exception, as raised by the embedded functions:
`BeartypeDecorHintPepException`, `BeartypeDecorHintPepSignException`,
`AttributeError` and `AssertionError`, each carrying its message. -/
inductive PyErr where
  | pepException (msg : String)
  | pepSignException (msg : String)
  | attributeError (msg : String)
  | assertionError (msg : String)
deriving DecidableEq, Repr

/-- The value of a `__args__` dunder attribute: either the `None` placeholder
(the legacy Python 3.6 edge case, e.g. `typing.Tuple.__args__ is None`) or a
tuple of objects. -/
inductive ArgsVal where
  | noneVal
  | tup (xs : List PyObj)
deriving DecidableEq, Repr

/-- The observations the source functions make of one hint object.  Boolean
fields record the answers of the external tester predicates; `Option` fields
record dunder attributes (`none` = attribute absent). -/
structure HintData where
  /-- Identity of the hint object itself (used when a branch returns the hint
  as is). -/
  name : String
  /-- Whether the external precondition check `die_unless_hint_pep` accepts
  this hint. -/
  isPep : Bool
  /-- Whether this hint is the `None` singleton. -/
  isNone : Bool
  /-- Result of `is_hint_pep_generic(hint)`. -/
  isPepGeneric : Bool
  /-- Result of `is_hint_pep585_builtin(hint)`. -/
  isPep585Builtin : Bool
  /-- Result of `is_hint_pep585_generic(hint)`. -/
  isPep585Generic : Bool
  /-- The `__origin__` dunder attribute, if any. -/
  origin : Option PyObj
  /-- Result of `isinstance(hint, type)`. -/
  isType : Bool
  /-- The `__args__` dunder attribute, if any. -/
  argsAttr : Option ArgsVal
  /-- The `__parameters__` dunder attribute if defined and non-`None`
  (the source reads it with `getattr(hint, (...), None)` and treats a `None`
  value exactly like an absent attribute, so the two cases collapse). -/
  paramsAttr : Option (List PyObj)
  /-- Result of the external `get_hint_pep585_generic_typevars(hint)`. -/
  pep585Typevars : List PyObj
  /-- Membership of this hint in the external set `HINT_PEP_SIGNS_TYPE`. -/
  inSignsType : Bool
  /-- Result of `is_hint_forwardref(hint)`. -/
  isForwardRef : Bool
  /-- Result of `is_hint_pep484_newtype(hint)`. -/
  isNewType : Bool
  /-- Result of `is_hint_pep_typevar(hint)`. -/
  isTypeVar : Bool
  /-- Result of `repr(hint)`. -/
  reprStr : String
  /-- Python 3.6 only: `isinstance(hint, typing._TypeAlias)`. -/
  isTypeAlias : Bool
  /-- Python 3.6 only: the non-standard `type_var` instance variable of a
  `typing._TypeAlias` (meaningful only when `isTypeAlias`). -/
  typeVarAttr : PyObj
  /-- Python 3.6 only: `is_hint_pep_typevar(hint.type_var)`. -/
  typeVarIsTypeVar : Bool
  /-- Result of the external `get_hint_pep585_generic_bases_unerased(hint)`
  (an `Except` since that extractor may itself raise). -/
  pep585Bases : Except PyErr (List PyObj)
  /-- Result of the external `get_hint_pep484_generic_bases_unerased(hint)`. -/
  pep484Bases : Except PyErr (List PyObj)
deriving Repr

/-- The external environment: the data-module sets and the module importer
used by `get_hint_pep_sign` and friends. -/
structure Env where
  /-- Contents of `HINT_PEP_MODULE_NAMES` (the fixed allow-list of hinting-facility
  module names, `typing` and `typing_extensions` in the source data module). -/
  moduleNames : List String
  /-- Embedding of `import_module`: maps a module name to its attribute table, or `none`
  if unimportable. -/
  modules : String → Option (String → Option PyObj)
  /-- Membership of a sign in `HINT_PEP_SIGNS_TYPE_ORIGIN_STDLIB`. -/
  signsTypeOriginStdlib : PyVal → Bool
  /-- Contents of `HINTS_PEP484_REPR_PREFIX_DEPRECATED` (the static set of deprecated
  bare representations; empty on interpreters predating PEP 585). -/
  deprecatedReprs : List String

/-- The `.` separator used by `get_hint_pep_sign` to split a representation
into module name and attribute path. -/
def dotChar : Char := ('.')

/-- The `[` subscript delimiter used to strip subscriptions from an attribute
path. -/
def lbrackChar : Char := ('[')

/-- Helper for `pyPartition` over character lists: split at the first
occurrence of `sep`, dropping the separator. -/
def pyPartitionAux (sep : Char) : List Char → List Char × List Char
  | [] => ([], [])
  | c :: cs =>
    if c = sep then ([], cs)
    else
      let p := pyPartitionAux sep cs
      (c :: p.1, p.2)

/-- Python's `str.partition`, restricted to the two components the source
uses: `(s.partition(sep)[0], s.partition(sep)[2])`.  When `sep` does not
occur, Python returns `(s, sep_empty, empty)`, i.e. the pair `(s, "")`. -/
def pyPartition (s : String) (sep : Char) : String × String :=
  let p := pyPartitionAux sep s.toList
  (String.mk p.1, String.mk p.2)

/-- Embedding of `_HINT_PEP_TYPING_NAME_BAD_TO_GOOD.get(s, s)`: the static misnamed
attribute correction table of `utilhintpepget.py`. -/
def badToGood (s : String) : String :=
  if s = "AbstractContextManager" then "ContextManager"
  else if s = "AbstractAsyncContextManager" then "AsyncContextManager"
  else s

/-- Message of the exception raised by the external precondition check
`die_unless_hint_pep` (its exact text lives outside the source files). -/
def dieUnlessHintPepMsg (h : HintData) : String :=
  "Type hint " ++ (h.reprStr ++ " not PEP-compliant.")

/-- Python truthiness of a `__args__` value: `None` and the empty tuple are
falsy, a non-empty tuple is truthy. -/
def argsTruthy : ArgsVal → Bool
  | .noneVal => false
  | .tup xs => !xs.isEmpty

/-- Embedding of `get_hint_pep_args`, Python >= 3.7 variant:
`return getattr(hint, (...) '__args__', ())` — the attribute value verbatim
when present, the empty tuple otherwise. -/
def get_hint_pep_args (h : HintData) : ArgsVal :=
  match h.argsAttr with
  | none => .tup []
  | some v => v

/-- Embedding of `get_hint_pep_args`, Python 3.6 variant: special-cases
`typing._TypeAlias` instances, and appends `or ()` to the attribute read so
that a `None`-valued `__args__` yields the empty tuple. -/
def get_hint_pep_args_py36 (h : HintData) : ArgsVal :=
  if h.isTypeAlias then
    if h.typeVarIsTypeVar then .tup []
    else .tup [h.typeVarAttr]
  else
    match h.argsAttr with
    | none => .tup []
    | some .noneVal => .tup []
    | some (.tup xs) => .tup xs

/-- Embedding of `get_hint_pep_typevars`, Python >= 3.9 variant: the `__parameters__`
attribute when defined and non-`None`; else the PEP 585 generic typevar
extraction when `is_hint_pep585_generic(hint)`; else the empty tuple. -/
def get_hint_pep_typevars (h : HintData) : List PyObj :=
  match h.paramsAttr with
  | none => if h.isPep585Generic then h.pep585Typevars else []
  | some tvs => tvs

/-- The hint itself viewed as a Python object (for the branches of
`get_hint_pep_sign` that return the hint as is). -/
def hintSelfObj (h : HintData) : PyObj :=
  { name := h.name, isTypeObj := h.isType }

/-- The bare-class branch condition of `get_hint_pep_sign`:
`isinstance(hint, type) and not (get_hint_pep_args(hint) or
get_hint_pep_typevars(hint))`. -/
def isBareClassCandidate (h : HintData) : Bool :=
  h.isType &&
    !(argsTruthy (get_hint_pep_args h) || !(get_hint_pep_typevars h).isEmpty)

/-- Embedding of `get_hint_pep_sign` on a modern interpreter (`IS_PYTHON_AT_LEAST_3_7`,
not `IS_PYTHON_3_6`): the ordered cascade of
`beartype/_util/hint/pep/utilhintpepget.py`, lines 389-638. -/
def get_hint_pep_sign (env : Env) (h : HintData) : Except PyErr PyVal :=
  if !h.isPep then .error (.pepException (dieUnlessHintPepMsg h))
  else if h.isNone then .ok .noneType
  else if h.isPepGeneric then .ok .genericABC
  else if h.isPep585Builtin then
    match h.origin with
    | some o => .ok (.obj o)
    | none => .error (.attributeError (h.reprStr ++ " has no attribute __origin__"))
  else if isBareClassCandidate h then
    if h.inSignsType then .ok (.obj (hintSelfObj h))
    else .error (.pepSignException
      ("Unsubscripted non-generic class " ++
        (h.reprStr ++ " invalid as sign (i.e., not in HINT_PEP_SIGNS_TYPE).")))
  else if h.isForwardRef then .ok .forwardRefType
  else if h.isNewType then .ok .newTypeFactory
  else if h.isTypeVar then .ok .typeVarClass
  else
    let hintName := h.reprStr
    let pm := pyPartition hintName dotChar
    let hintModuleName := pm.1
    let hintModuleAttrName := pm.2
    if hintModuleName ∈ env.moduleNames then
      let signName := badToGood (pyPartition hintModuleAttrName lbrackChar).1
      match env.modules hintModuleName with
      | none => .error (.pepSignException
          ("Type hint " ++ (h.reprStr ++ (" module " ++ (hintModuleName ++ " unimportable.")))))
      | some attrTable =>
        match attrTable signName with
        | some sign => .ok (.obj sign)
        | none => .error (.pepSignException
            ("Type hint " ++ (h.reprStr ++ (" attribute \"typing." ++ (signName ++ "\" not found.")))))
    else
      .error (.pepSignException
        ("Type hint " ++ (h.reprStr ++ (" representation \"" ++ (h.reprStr ++
          "\" not prefixed by \"typing.\" or \"typing_extensions.\".")))))

/-- Embedding of `get_hint_pep_generic_type_or_none` (`utilhintpepget.py`, lines 641-701):
read the origin via `_get_hint_pep_origin_object_or_none` (i.e.
`getattr(hint, (...) '__origin__', None)` on Python >= 3.7); if the origin is
a class return it, else if the hint is a class return the hint, else `None`.
Total — the source uses only defaulted attribute reads and `isinstance`. -/
def get_hint_pep_generic_type_or_none (h : HintData) : Option PyObj :=
  match h.origin with
  | some o =>
    if o.isTypeObj then some o
    else if h.isType then some (hintSelfObj h)
    else none
  | none =>
    if h.isType then some (hintSelfObj h)
    else none

/-- Embedding of `get_hint_pep_stdlib_type_or_none` (`utilhintpepget.py`, lines 751-800):
classify the hint, then return `_get_hint_pep_origin_object_or_none(hint)`
when the sign is in `HINT_PEP_SIGNS_TYPE_ORIGIN_STDLIB`, else `None`.
Exceptions raised by the sign classifier propagate. -/
def get_hint_pep_stdlib_type_or_none (env : Env) (h : HintData) :
    Except PyErr (Option PyObj) :=
  match get_hint_pep_sign env h with
  | .error e => .error e
  | .ok s =>
    .ok (if env.signsTypeOriginStdlib s then h.origin else none)

/-- Embedding of `get_hint_pep_stdlib_type` (`utilhintpepget.py`, lines 704-748): the
strict variant, raising `BeartypeDecorHintPepException` when the non-strict
variant yields `None`. -/
def get_hint_pep_stdlib_type (env : Env) (h : HintData) : Except PyErr PyObj :=
  match get_hint_pep_stdlib_type_or_none env h with
  | .error e => .error e
  | .ok none => .error (.pepException
      ("PEP type hint " ++ (h.reprStr ++
        " not originative (i.e., does not originate from external class).")))
  | .ok (some t) => .ok t

/-- Embedding of `get_hint_pep_generic_bases_unerased` (`utilhintpepget.py`, lines
803-996): dispatch to the PEP 585 or PEP 484 per-category extraction, then
raise `BeartypeDecorHintPepException` if the extracted tuple is empty. -/
def get_hint_pep_generic_bases_unerased (h : HintData) :
    Except PyErr (List PyObj) :=
  match (if h.isPep585Generic then h.pep585Bases else h.pep484Bases) with
  | .error e => .error e
  | .ok bases =>
    if bases.isEmpty then
      .error (.pepException
        ("PEP generic " ++ (h.reprStr ++ " subclasses no superclasses.")))
    else .ok bases

/-- An emitted (non-fatal) warning: class name plus message, as passed to
`issue_warning`. -/
structure Warning where
  cls : String
  message : String
deriving DecidableEq, Repr

/-- Placeholder for `URL_PEP585_DEPRECATIONS` from `beartype.meta` (external constant; its
exact value is irrelevant to every claim). -/
def URL_PEP585_DEPRECATIONS : String := "URL_PEP585_DEPRECATIONS"

/-- Embedding of `reduce_hint_pep484_deprecated`
(`proposal/pep484/utilpep484.py`, lines 62-140): compute the bare
representation (text before the first `[`); if it is in
`HINTS_PEP484_REPR_PREFIX_DEPRECATED`, emit one
`BeartypeDecorHintPep585DeprecationWarning`; return the hint unchanged
either way.  The external `get_hint_repr(hint)` is the hint's `repr`.
Result: the returned hint paired with the list of warnings emitted. -/
def reduce_hint_pep484_deprecated (env : Env) (h : HintData)
    (errPfx : String) : HintData × List Warning :=
  let hintRepr := h.reprStr
  let hintReprBare := (pyPartition hintRepr lbrackChar).1
  if hintReprBare ∈ env.deprecatedReprs then
    (h, [{ cls := "BeartypeDecorHintPep585DeprecationWarning"
         , message :=
            errPfx ++ ("PEP 484 type hint " ++ (h.reprStr ++
              (" deprecated by PEP 585. This hint is scheduled for removal " ++
               ("in the first Python version released after October 5th, " ++
                ("2025. To resolve this, import this hint from " ++
                 ("\"beartype.typing\" rather than \"typing\". For further " ++
                  ("commentary and alternatives, see also:\n    " ++
                   URL_PEP585_DEPRECATIONS))))))) }])
  else
    (h, [])

/-- Embedding of `reduce_hint_pep484_none` (`proposal/pep484/utilpep484.py`, lines
148-178): `assert hint is None`, then return `NoneType`.  A violated
precondition surfaces as an `AssertionError` (a programming-error-level
failure, distinct from the beartype exception types). -/
def reduce_hint_pep484_none (h : HintData) : Except PyErr PyVal :=
  if h.isNone then .ok .noneType
  else .error (.assertionError
    ("Type hint " ++ (h.reprStr ++ " not \"None\" singleton.")))

/-- Embedding of `is_hint_pep484_typevar_ignorable` (`proposal/pep484/utilpep484.py`,
lines 34-59): unconditionally `True`. -/
def is_hint_pep484_typevar_ignorable (_h : HintData) : Bool :=
  true

/-! Concrete fixtures:

Concrete objects, hints and an environment used to evaluate the embedded
functions on closed inputs (for the witness theorems). -/

/-- The builtin `list` class. -/
def listObj : PyObj := { name := "list", isTypeObj := true }

/-- The unsubscripted `typing.Tuple` attribute of the `typing` module (not a
class). -/
def typingTupleObj : PyObj := { name := "typing.Tuple", isTypeObj := false }

/-- The `typing.ContextManager` attribute of the `typing` module. -/
def typingContextManagerObj : PyObj :=
  { name := "typing.ContextManager", isTypeObj := false }

/-- A free type variable object `~T` (not a class). -/
def typeVarTObj : PyObj := { name := "~T", isTypeObj := false }

/-- Attribute table of a concrete `typing` module exposing `Tuple` and
`ContextManager`. -/
def typingAttrTable : String → Option PyObj := fun a =>
  if a = "Tuple" then some typingTupleObj
  else if a = "ContextManager" then some typingContextManagerObj
  else none

/-- A concrete environment: `typing` and `typing_extensions` as the
recognized module names, a `typing` module exposing `Tuple` and
`ContextManager`, the sign `list` as the sole stdlib-originating sign, and
`typing.List` as the sole deprecated bare representation. -/
def envStd : Env :=
  { moduleNames := ["typing", "typing_extensions"]
  , modules := fun m =>
      if m = "typing" then some typingAttrTable
      else none
  , signsTypeOriginStdlib := fun v => decide (v = .obj listObj)
  , deprecatedReprs := ["typing.List"] }

/-- A neutral default hint: PEP-compliant, matched by no structural branch,
with representation `typing.Tuple[str]`. -/
def baseHint : HintData :=
  { name := "hint"
  , isPep := true
  , isNone := false
  , isPepGeneric := false
  , isPep585Builtin := false
  , isPep585Generic := false
  , origin := none
  , isType := false
  , argsAttr := none
  , paramsAttr := none
  , pep585Typevars := []
  , inSignsType := false
  , isForwardRef := false
  , isNewType := false
  , isTypeVar := false
  , reprStr := "typing.Tuple[str]"
  , isTypeAlias := false
  , typeVarAttr := typeVarTObj
  , typeVarIsTypeVar := false
  , pep585Bases := .ok []
  , pep484Bases := .ok [] }

/-- An unsubscripted user-defined generic class hint. -/
def genericHint : HintData :=
  { baseHint with
      name := "MuhGeneric"
    , isPepGeneric := true
    , isType := true
    , reprStr := "<class MuhGeneric>"
    , pep484Bases := .ok [typingTupleObj] }

/-- The same generic subscripted by a type argument: still accepted by
`is_hint_pep_generic`, no longer a class. -/
def genericSubscriptedHint : HintData :=
  { baseHint with
      name := "MuhGeneric[int]"
    , isPepGeneric := true
    , argsAttr := some (.tup [listObj])
    , reprStr := "MuhGeneric[int]" }

/-- A PEP 585 parameterized builtin hint `list[str]` with origin `list`. -/
def listStrHint : HintData :=
  { baseHint with
      name := "list[str]"
    , isPep585Builtin := true
    , origin := some listObj
    , argsAttr := some (.tup [listObj])
    , reprStr := "list[str]" }

example : get_hint_pep_sign envStd genericHint = .ok .genericABC := rfl
example : get_hint_pep_sign envStd listStrHint = .ok (.obj listObj) := rfl
example : get_hint_pep_sign envStd baseHint = .ok (.obj typingTupleObj) := rfl
example :
    pyPartition ("typing.Tuple[str]") dotChar = ("typing", "Tuple[str]") := by
  decide

/-- A bare class hint registered in `HINT_PEP_SIGNS_TYPE` (e.g. the
`NoneType` class, a member of that set in the source data module). -/
def bareAllowedClassHint : HintData :=
  { baseHint with
      name := "NoneType"
    , isType := true
    , inSignsType := true
    , reprStr := "<class NoneType>" }

/-- A hint whose `__args__` attribute exists but is the `None` placeholder
(the legacy `typing.Tuple.__args__ is None` edge case). -/
def nonePlaceholderHint : HintData :=
  { baseHint with
      name := "typing.Tuple"
    , argsAttr := some .noneVal
    , reprStr := "typing.Tuple" }

/-- A deprecated PEP 484 hint `typing.List[int]` whose bare representation
`typing.List` is in the deprecated set of `envStd`. -/
def listIntHint : HintData :=
  { baseHint with
      name := "typing.List[int]"
    , reprStr := "typing.List[int]" }

/-- The `None` singleton used as a type hint. -/
def noneHint : HintData :=
  { baseHint with
      name := "None"
    , isNone := true
    , reprStr := "None" }

/-- A non-generic hint that is itself a class and carries a class origin. -/
def classOriginHint : HintData :=
  { baseHint with
      name := "MuhClass"
    , isType := true
    , origin := some listObj
    , reprStr := "<class MuhClass>" }

/-! Theorems settling the claims. -/

/-- C1: every hint accepted by the generic predicate (necessarily a class,
hence not the `None` singleton) classifies to the canonical generic marker
`typing.Generic`, regardless of the parameterized-builtin predicate, the
bare-class data, and the representation — the generic branch precedes the
parameterized-builtin branch, the bare-class branch and the
representation-parsing fallback, so a generic class and any of its
subscriptions classify to the same marker. -/
theorem sign_of_generic_is_generic (env : Env) (h : HintData)
    (hp : h.isPep = true) (hn : h.isNone = false)
    (hg : h.isPepGeneric = true) :
    get_hint_pep_sign env h = .ok .genericABC := by
  simp [get_hint_pep_sign, hp, hn, hg]

/-- Witness for C1: an unsubscripted generic class and its subscription both
classify to `typing.Generic`. -/
theorem sign_of_generic_is_generic_witness :
    get_hint_pep_sign envStd genericHint = .ok .genericABC ∧
    get_hint_pep_sign envStd genericSubscriptedHint = .ok .genericABC :=
  ⟨sign_of_generic_is_generic envStd genericHint rfl rfl rfl,
   sign_of_generic_is_generic envStd genericSubscriptedHint rfl rfl rfl⟩

/-- C3: a PEP 585 parameterized builtin hint that is not a generic (and not
the `None` singleton) classifies to the value of its `__origin__` attribute
directly. -/
theorem sign_of_pep585_builtin_is_origin (env : Env) (h : HintData)
    (hp : h.isPep = true) (hn : h.isNone = false)
    (hg : h.isPepGeneric = false) (hb : h.isPep585Builtin = true)
    (o : PyObj) (ho : h.origin = some o) :
    get_hint_pep_sign env h = .ok (.obj o) := by
  simp [get_hint_pep_sign, hp, hn, hg, hb, ho]

/-- Witness for C3: `list[str]` classifies to the plain `list` type. -/
theorem sign_of_pep585_builtin_is_origin_witness :
    get_hint_pep_sign envStd listStrHint = .ok (.obj listObj) :=
  sign_of_pep585_builtin_is_origin envStd listStrHint rfl rfl rfl rfl
    listObj rfl

/-- C4: a class hint carrying no type arguments and no type parameters (and
matched by no earlier branch) is returned as its own sign exactly when it is
a member of `HINT_PEP_SIGNS_TYPE`; otherwise `get_hint_pep_sign` raises a
sign-resolution error (`BeartypeDecorHintPepSignException`) rather than
returning the class. -/
theorem sign_of_bare_class_iff_allowed (env : Env) (h : HintData)
    (hp : h.isPep = true) (hn : h.isNone = false)
    (hg : h.isPepGeneric = false) (hb : h.isPep585Builtin = false)
    (hcls : h.isType = true)
    (hargs : argsTruthy (get_hint_pep_args h) = false)
    (htvs : get_hint_pep_typevars h = []) :
    (get_hint_pep_sign env h = .ok (.obj (hintSelfObj h)) ↔
      h.inSignsType = true)
    ∧ (h.inSignsType = false →
        ∃ msg, get_hint_pep_sign env h = .error (.pepSignException msg)) := by
  cases hsign : h.inSignsType <;>
    simp [get_hint_pep_sign, isBareClassCandidate, hp, hn, hg, hb, hcls,
      hargs, htvs, hsign]

/-- Witness for C4: a registered bare class is returned as its own sign, and
an unregistered one raises. -/
theorem sign_of_bare_class_iff_allowed_witness :
    get_hint_pep_sign envStd bareAllowedClassHint =
      .ok (.obj (hintSelfObj bareAllowedClassHint)) ∧
    ∃ msg, get_hint_pep_sign envStd classOriginHint =
      .error (.pepSignException msg) :=
  ⟨(sign_of_bare_class_iff_allowed envStd bareAllowedClassHint rfl rfl rfl
      rfl rfl rfl rfl).1.mpr rfl,
   (sign_of_bare_class_iff_allowed envStd classOriginHint rfl rfl rfl
      rfl rfl rfl rfl).2 rfl⟩

/-- C5: `get_hint_pep_generic_bases_unerased` never returns an empty tuple:
every `ok` result is non-empty, and when the per-category extraction yields
the empty tuple the accessor raises a `BeartypeDecorHintPepException` whose
message embeds the hint's representation. -/
theorem generic_bases_unerased_nonempty_or_error (h : HintData) :
    (∀ bases, get_hint_pep_generic_bases_unerased h = .ok bases →
      bases ≠ [])
    ∧ ((if h.isPep585Generic then h.pep585Bases else h.pep484Bases) =
        .ok [] →
        get_hint_pep_generic_bases_unerased h = .error (.pepException
          ("PEP generic " ++ (h.reprStr ++ " subclasses no superclasses.")))) := by
  unfold get_hint_pep_generic_bases_unerased
  cases hres : (if h.isPep585Generic then h.pep585Bases else h.pep484Bases) with
  | error e => simp
  | ok bases =>
    cases bases with
    | nil => simp
    | cons b bs => simp

/-- Witness for C5: a hint whose per-category extraction yields the empty
tuple makes the accessor raise. -/
theorem generic_bases_unerased_nonempty_or_error_witness :
    get_hint_pep_generic_bases_unerased baseHint = .error (.pepException
      ("PEP generic " ++ (baseHint.reprStr ++ " subclasses no superclasses."))) :=
  (generic_bases_unerased_nonempty_or_error baseHint).2 rfl

/-- C2: on a hint matched by no structural branch, `get_hint_pep_sign`
parses the representation: it splits on the first `.` into module name and
attribute path, splits the attribute path on the first `[`, applies the
misnamed-attribute correction table, and returns that attribute of the named
module; when the module name is not in `HINT_PEP_MODULE_NAMES`, or the
corrected attribute is absent from the module, it raises a
`BeartypeDecorHintPepSignException` whose message embeds the hint's
representation. -/
theorem sign_fallback_parses_representation (env : Env) (h : HintData)
    (hp : h.isPep = true) (hn : h.isNone = false)
    (hg : h.isPepGeneric = false) (hb : h.isPep585Builtin = false)
    (hcls : isBareClassCandidate h = false)
    (hf : h.isForwardRef = false) (hnw : h.isNewType = false)
    (htv : h.isTypeVar = false) :
    ((pyPartition h.reprStr dotChar).1 ∉ env.moduleNames →
      get_hint_pep_sign env h = .error (.pepSignException
        ("Type hint " ++ (h.reprStr ++ (" representation \"" ++ (h.reprStr ++
          "\" not prefixed by \"typing.\" or \"typing_extensions.\"."))))))
    ∧ ((pyPartition h.reprStr dotChar).1 ∈ env.moduleNames →
      ∀ attrTable,
        env.modules (pyPartition h.reprStr dotChar).1 = some attrTable →
        (∀ v,
          attrTable (badToGood
            (pyPartition (pyPartition h.reprStr dotChar).2 lbrackChar).1) =
            some v →
          get_hint_pep_sign env h = .ok (.obj v))
        ∧ (attrTable (badToGood
            (pyPartition (pyPartition h.reprStr dotChar).2 lbrackChar).1) =
            none →
          get_hint_pep_sign env h = .error (.pepSignException
            ("Type hint " ++ (h.reprStr ++ (" attribute \"typing." ++
              (badToGood
                (pyPartition (pyPartition h.reprStr dotChar).2 lbrackChar).1 ++
                "\" not found."))))))) := by
  constructor
  · intro hmem
    simp [get_hint_pep_sign, hp, hn, hg, hb, hcls, hf, hnw, htv, hmem]
  · intro hmem attrTable hmod
    constructor
    · intro v hv
      simp [get_hint_pep_sign, hp, hn, hg, hb, hcls, hf, hnw, htv, hmem,
        hmod, hv]
    · intro hnone
      simp [get_hint_pep_sign, hp, hn, hg, hb, hcls, hf, hnw, htv, hmem,
        hmod, hnone]

/-- Witness for C2: `typing.Tuple[str]` resolves to the `typing.Tuple`
attribute of the `typing` module. -/
theorem sign_fallback_parses_representation_witness :
    get_hint_pep_sign envStd baseHint = .ok (.obj typingTupleObj) :=
  ((sign_fallback_parses_representation envStd baseHint rfl rfl rfl rfl
      rfl rfl rfl rfl).2 (by decide) typingAttrTable rfl).1
    typingTupleObj rfl

/-- C6 counterexample: on the Python >= 3.7 implementation, a hint whose
`__args__` attribute exists but holds the `None` placeholder does *not*
yield the empty tuple — the attribute value is returned verbatim. -/
theorem args_none_placeholder_counterexample :
    nonePlaceholderHint.argsAttr = some .noneVal ∧
    get_hint_pep_args nonePlaceholderHint ≠ .tup [] :=
  ⟨rfl, by decide⟩

/-- C6 amended: every hint lacking the `__args__` attribute yields the empty
tuple (on both the Python >= 3.7 and Python 3.6 implementations, the latter
outside its `typing._TypeAlias` special case); the conversion of the `None`
placeholder to the empty tuple happens only in the Python 3.6
implementation, while the Python >= 3.7 implementation returns the
attribute value verbatim. -/
theorem args_absent_empty_placeholder_py36_only (h : HintData) :
    (h.argsAttr = none → get_hint_pep_args h = .tup [])
    ∧ (∀ v, h.argsAttr = some v → get_hint_pep_args h = v)
    ∧ (h.isTypeAlias = false → h.argsAttr = none →
        get_hint_pep_args_py36 h = .tup [])
    ∧ (h.isTypeAlias = false → h.argsAttr = some .noneVal →
        get_hint_pep_args_py36 h = .tup []) := by
  refine ⟨fun ha => ?_, fun v ha => ?_, fun hta ha => ?_, fun hta ha => ?_⟩
  · simp [get_hint_pep_args, ha]
  · simp [get_hint_pep_args, ha]
  · simp [get_hint_pep_args_py36, ha, hta]
  · simp [get_hint_pep_args_py36, ha, hta]

/-- Witness for C6 (amended): the Python 3.6 implementation maps the `None`
placeholder to the empty tuple. -/
theorem args_absent_empty_placeholder_py36_only_witness :
    get_hint_pep_args_py36 nonePlaceholderHint = .tup [] :=
  (args_absent_empty_placeholder_py36_only nonePlaceholderHint).2.2.2 rfl rfl

/-- C7: the deprecation reducer returns its hint unchanged and never raises;
it emits exactly one `BeartypeDecorHintPep585DeprecationWarning` exactly
when the bare representation (the text before the first `[`) is in
`HINTS_PEP484_REPR_PREFIX_DEPRECATED`, and emits no warning otherwise. -/
theorem reduce_deprecated_identity_and_warning (env : Env) (h : HintData)
    (errPfx : String) :
    (reduce_hint_pep484_deprecated env h errPfx).1 = h
    ∧ ((reduce_hint_pep484_deprecated env h errPfx).2.length = 1 ↔
        (pyPartition h.reprStr lbrackChar).1 ∈ env.deprecatedReprs)
    ∧ ((pyPartition h.reprStr lbrackChar).1 ∉ env.deprecatedReprs →
        (reduce_hint_pep484_deprecated env h errPfx).2 = []) := by
  by_cases hmem : (pyPartition h.reprStr lbrackChar).1 ∈ env.deprecatedReprs <;>
    simp [reduce_hint_pep484_deprecated, hmem]

/-- Witness for C7: `typing.List[int]` (deprecated bare representation
`typing.List`) triggers exactly one warning, and the non-deprecated
`typing.Tuple[str]` triggers none. -/
theorem reduce_deprecated_identity_and_warning_witness :
    (reduce_hint_pep484_deprecated envStd listIntHint ("")).2.length = 1 ∧
    (reduce_hint_pep484_deprecated envStd baseHint ("")).2 = [] :=
  ⟨(reduce_deprecated_identity_and_warning envStd listIntHint ("")).2.1.mpr
      (by decide),
   (reduce_deprecated_identity_and_warning envStd baseHint ("")).2.2
      (by decide)⟩

/-- C8: when the sign classifier succeeds, the non-strict resolver returns
the Origin Resolver's result exactly when the sign is in
`HINT_PEP_SIGNS_TYPE_ORIGIN_STDLIB` and `None` otherwise; the strict variant
returns the same type when present and raises a
`BeartypeDecorHintPepException` exactly when the non-strict variant yields
`None`. -/
theorem stdlib_type_resolution (env : Env) (h : HintData) :
    (∀ s, get_hint_pep_sign env h = .ok s →
      ((env.signsTypeOriginStdlib s = true →
          get_hint_pep_stdlib_type_or_none env h = .ok h.origin)
       ∧ (env.signsTypeOriginStdlib s = false →
          get_hint_pep_stdlib_type_or_none env h = .ok none)))
    ∧ (∀ t, get_hint_pep_stdlib_type_or_none env h = .ok (some t) →
        get_hint_pep_stdlib_type env h = .ok t)
    ∧ (∀ r, get_hint_pep_stdlib_type_or_none env h = .ok r →
        ((∃ msg, get_hint_pep_stdlib_type env h = .error (.pepException msg))
          ↔ r = none)) := by
  refine ⟨fun s hs => ⟨fun hin => ?_, fun hout => ?_⟩,
    fun t ht => ?_, fun r hr => ?_⟩
  · simp [get_hint_pep_stdlib_type_or_none, hs, hin]
  · simp [get_hint_pep_stdlib_type_or_none, hs, hout]
  · simp [get_hint_pep_stdlib_type, ht]
  · cases r with
    | none => simp [get_hint_pep_stdlib_type, hr]
    | some t => simp [get_hint_pep_stdlib_type, hr]

/-- Witness for C8: `list[str]` has sign `list`, which is in the stdlib
allow-list, so the strict resolver returns `list`. -/
theorem stdlib_type_resolution_witness :
    get_hint_pep_stdlib_type envStd listStrHint = .ok listObj :=
  (stdlib_type_resolution envStd listStrHint).2.1 listObj rfl

/-- C9: on the `None` singleton, `reduce_hint_pep484_none` returns
`NoneType` (the type of that singleton); on any other value it fails with an
`AssertionError` (a programming-error-level failure, not a beartype
exception). -/
theorem reduce_none_spec (h : HintData) :
    (h.isNone = true → reduce_hint_pep484_none h = .ok .noneType)
    ∧ (h.isNone = false →
        ∃ msg, reduce_hint_pep484_none h = .error (.assertionError msg)) := by
  cases hn : h.isNone <;> simp [reduce_hint_pep484_none, hn]

/-- Witness for C9: the `None` singleton reduces to `NoneType`, and a
non-`None` hint fails the assertion. -/
theorem reduce_none_spec_witness :
    reduce_hint_pep484_none noneHint = .ok .noneType ∧
    ∃ msg, reduce_hint_pep484_none baseHint = .error (.assertionError msg) :=
  ⟨(reduce_none_spec noneHint).1 rfl, (reduce_none_spec baseHint).2 rfl⟩

/-- C10: `get_hint_pep_generic_type_or_none` (total, hence never raising)
returns only classes or `None`; it prefers a class-valued origin over the
hint itself, returns the hint itself when the hint is a class whose origin
is not a class, returns `None` when neither is a class — and it can return a
non-`None` class for a non-generic hint (a false positive the caller must
filter out). -/
theorem generic_type_or_none_spec :
    (∀ h : HintData,
      (∀ o, get_hint_pep_generic_type_or_none h = some o →
        o.isTypeObj = true)
      ∧ (∀ o, h.origin = some o → o.isTypeObj = true →
          get_hint_pep_generic_type_or_none h = some o)
      ∧ ((∀ o, h.origin = some o → o.isTypeObj = false) → h.isType = true →
          get_hint_pep_generic_type_or_none h = some (hintSelfObj h))
      ∧ ((∀ o, h.origin = some o → o.isTypeObj = false) → h.isType = false →
          get_hint_pep_generic_type_or_none h = none))
    ∧ (∃ h : HintData, h.isPepGeneric = false ∧
        (get_hint_pep_generic_type_or_none h).isSome = true) := by
  constructor
  · intro h
    refine ⟨fun o ho => ?_, fun o ho hto => ?_, fun hno ht => ?_,
      fun hno ht => ?_⟩
    · unfold get_hint_pep_generic_type_or_none at ho
      cases horig : h.origin with
      | none =>
        rw [horig] at ho
        by_cases hty : h.isType = true
        · simp [hty] at ho
          rw [← ho]
          simpa [hintSelfObj] using hty
        · simp [Bool.of_not_eq_true hty] at ho
      | some oo =>
        rw [horig] at ho
        by_cases hoty : oo.isTypeObj = true
        · simp [hoty] at ho
          rw [← ho]
          exact hoty
        · by_cases hty : h.isType = true
          · simp [Bool.of_not_eq_true hoty, hty] at ho
            rw [← ho]
            simpa [hintSelfObj] using hty
          · simp [Bool.of_not_eq_true hoty, Bool.of_not_eq_true hty] at ho
    · simp [get_hint_pep_generic_type_or_none, ho, hto]
    · cases horig : h.origin with
      | none => simp [get_hint_pep_generic_type_or_none, horig, ht]
      | some oo =>
        simp [get_hint_pep_generic_type_or_none, horig, hno oo horig, ht]
    · cases horig : h.origin with
      | none => simp [get_hint_pep_generic_type_or_none, horig, ht]
      | some oo =>
        simp [get_hint_pep_generic_type_or_none, horig, hno oo horig, ht]

  · exact ⟨classOriginHint, rfl, rfl⟩

/-- Witness for C10: a hint with class origin `list` resolves to `list`
(the origin preferred over the hint itself, which is also a class). -/
theorem generic_type_or_none_spec_witness :
    get_hint_pep_generic_type_or_none classOriginHint = some listObj :=
  (generic_type_or_none_spec.1 classOriginHint).2.1 listObj rfl rfl

end Beartype
